import Mathlib

/-!
Verification of the OpenTRV V0p2 control core
(`V0p2_Main/Control.cpp`, snapshot 20150321-r4359).

The C++ source is shallowly embedded: each C function becomes a Lean
function over `Nat`/`Int`, with explicit `% 256` (helper `u8i`) exactly
where the C code converts an `int` intermediate back to `uint8_t`, and
`Int` wherever C does arithmetic in (promoted) `int`.  Constants defined
in `Control.cpp` itself are fixed numerals; constants that live in the
headers (`Control.h` / `V0p2_Main.h`, not part of the provided source)
are carried in a `Params` record and are documented as modelled from the
specification, which itself treats their exact numeric defaults as
configuration.
-/

/-- `(uint8_t)x` for an `int` intermediate `x`: reduce modulo 256 into `Nat`. -/
def u8i (x : Int) : Nat := (x % 256).toNat

/-- `(int8_t)x` for an `int` intermediate `x` (GCC two's-complement wrap). -/
def toInt8 (x : Int) : Int := (x + 128) % 256 - 128

/-- Arduino `constrain(amt, low, high)` macro on `int` operands. -/
def constrainI (x lo hi : Int) : Int := if x < lo then lo else if x > hi then hi else x

/-- Arduino `constrain(amt, low, high)` macro on `uint8_t` operands. -/
def constrainN (x lo hi : Nat) : Nat := if x < lo then lo else if x > hi then hi else x

/-! ## Temperature codec (Control.cpp lines 1214-1247)

All compression constants are defined in `Control.cpp` itself:
`COMPRESSION_C16_LOW_THRESHOLD = 16<<4 = 256`,
`COMPRESSION_C16_LOW_THR_AFTER = 256>>3 = 32`,
`COMPRESSION_C16_HIGH_THRESHOLD = 24<<4 = 384`,
`COMPRESSION_C16_HIGH_THR_AFTER = 32 + (128>>1) = 96`,
`COMPRESSION_C16_CEIL_VAL = 100<<4 = 1600`,
`COMPRESSION_C16_CEIL_VAL_AFTER = 96 + (1216>>3) = 248`. -/

/-- Modelled from the spec: `STATS_UNSET_INT`, the 0xFF "unset" sentinel for
stored stats bytes and for `expandTempC16`'s invalid-input result, is defined
in `Control.h` which is not part of the provided source; the spec fixes the
sentinel as UNSET(0xFF). -/
def STATS_UNSET_INT : Nat := 255

/-- `compressTempC16` (Control.cpp lines 1226-1235).  C right-shifts on the
(guaranteed nonnegative) `int` are floor divisions. -/
def compressTempC16 (tempC16 : Int) : Nat :=
  if tempC16 ≤ 0 then 0
  else if tempC16.toNat < 256 then tempC16.toNat / 8
  else if tempC16.toNat < 384 then (tempC16.toNat - 256) / 2 + 32
  else if tempC16.toNat < 1600 then (tempC16.toNat - 384) / 8 + 96
  else 248

/-- `expandTempC16` (Control.cpp lines 1239-1247). -/
def expandTempC16 (cTemp : Nat) : Int :=
  if cTemp < 32 then (cTemp : Int) * 8
  else if cTemp < 96 then ((cTemp : Int) - 32) * 2 + 256
  else if cTemp ≤ 248 then ((cTemp : Int) - 96) * 8 + 384
  else (STATS_UNSET_INT : Int)

/-! ## Exponential stats smoothing (Control.cpp lines 1000-1023) -/

/-- `STATS_SMOOTH_SHIFT` (Control.cpp line 1001). -/
def STATS_SMOOTH_SHIFT : Nat := 3

/-- `smoothStatsValue` (Control.cpp lines 1010-1023).  The random
`randRNG8() & 7` addend is passed in explicitly as `stocAdd`.  The C code
computes `(((uint16_t)old << 3) - (uint16_t)old + new + stocAdd) >> 3` in
16-bit arithmetic and converts the result to `uint8_t`; the `% 65536` and
`% 256` below are those conversions (no-ops for byte-range inputs). -/
def smoothStatsValue (stocAdd oldSmoothed newValue : Nat) : Nat :=
  if oldSmoothed = newValue then oldSmoothed
  else ((oldSmoothed * 2 ^ STATS_SMOOTH_SHIFT - oldSmoothed + newValue + stocAdd) % 65536
         / 2 ^ STATS_SMOOTH_SHIFT) % 256

/-! ## Claim C3: codec round-trip and monotonicity -/

/-- C3: for temperatures in [0 C, 100 C] in 16ths, `expandTempC16 ∘ compressTempC16`
reproduces the input to within its band's precision step (0.5 C = 8/16ths in the
coarse bands, 1/8 C = 2/16ths in the high-precision band [16 C, 24 C)), and
`compressTempC16` is monotonic non-decreasing over all inputs. -/
theorem claim_C3_codec_roundtrip_monotone (t t' : Int) :
    (t ≤ t' → compressTempC16 t ≤ compressTempC16 t') ∧
    (0 ≤ t → t ≤ 1600 →
      (expandTempC16 (compressTempC16 t) - t).natAbs ≤ 8 ∧
      (256 ≤ t → t < 384 → (expandTempC16 (compressTempC16 t) - t).natAbs ≤ 2)) := by
  constructor
  · intro hle
    unfold compressTempC16
    split_ifs <;> omega
  · intro h0 h1600
    unfold compressTempC16 expandTempC16 STATS_UNSET_INT
    split_ifs <;> omega

/-- C3 witness: the round-trip and monotonicity bounds at concrete inputs
t = 300 (high-precision band) and t' = 500. -/
theorem claim_C3_witness :
    (300 : Int) ≤ 500 ∧ (0 : Int) ≤ 300 ∧ (300 : Int) ≤ 1600 ∧
    compressTempC16 300 ≤ compressTempC16 500 ∧
    (expandTempC16 (compressTempC16 300) - 300).natAbs ≤ 2 := by
  refine ⟨by norm_num, by norm_num, by norm_num,
    (claim_C3_codec_roundtrip_monotone 300 500).1 (by norm_num), ?_⟩
  exact (((claim_C3_codec_roundtrip_monotone 300 500).2 (by norm_num) (by norm_num)).2
    (by norm_num) (by norm_num))

/-! ## Claim C10: compression ceiling, never the UNSET sentinel -/

/-- C10: every output of `compressTempC16` is at most the compressed ceiling
value 248 (the encoding of 100 C), hence never the 0xFF UNSET sentinel, and
expanding any compressed value never yields the UNSET result. -/
theorem claim_C10_compress_never_unset (t : Int) :
    compressTempC16 t ≤ 248 ∧
    compressTempC16 t ≠ STATS_UNSET_INT ∧
    expandTempC16 (compressTempC16 t) ≠ (STATS_UNSET_INT : Int) := by
  unfold compressTempC16 expandTempC16 STATS_UNSET_INT
  split_ifs <;> omega

/-! ## Claim C4: smoothing stays within [min, max] of its inputs -/

/-- C4: for every pair of bytes and every stochastic addend in [0, 2^3),
`smoothStatsValue` lies between `min old new` and `max old new`. -/
theorem claim_C4_smoothing_bounds (stocAdd oldSmoothed newValue : Nat)
    (hs : stocAdd < 2 ^ STATS_SMOOTH_SHIFT) (ho : oldSmoothed < 256) (hn : newValue < 256) :
    min oldSmoothed newValue ≤ smoothStatsValue stocAdd oldSmoothed newValue ∧
    smoothStatsValue stocAdd oldSmoothed newValue ≤ max oldSmoothed newValue := by
  unfold smoothStatsValue STATS_SMOOTH_SHIFT at *
  have e8 : (2 : Nat) ^ 3 = 8 := by norm_num
  rw [e8] at hs ⊢
  have h1 : oldSmoothed * 8 - oldSmoothed + newValue + stocAdd < 65536 := by omega
  rw [Nat.mod_eq_of_lt h1]
  have h2 : (oldSmoothed * 8 - oldSmoothed + newValue + stocAdd) / 8 < 256 := by omega
  rw [Nat.mod_eq_of_lt h2]
  split_ifs <;> omega

/-- C4 witness: the smoothing bounds at `stocAdd = 7`, `old = 100`, `new = 20`. -/
theorem claim_C4_witness :
    7 < 2 ^ STATS_SMOOTH_SHIFT ∧ 100 < 256 ∧ 20 < 256 ∧
    min 100 20 ≤ smoothStatsValue 7 100 20 ∧ smoothStatsValue 7 100 20 ≤ max 100 20 := by
  refine ⟨by norm_num [STATS_SMOOTH_SHIFT], by norm_num, by norm_num, ?_, ?_⟩
  · exact (claim_C4_smoothing_bounds 7 100 20 (by norm_num [STATS_SMOOTH_SHIFT])
      (by norm_num) (by norm_num)).1
  · exact (claim_C4_smoothing_bounds 7 100 20 (by norm_num [STATS_SMOOTH_SHIFT])
      (by norm_num) (by norm_num)).2

/-! ## Quartile membership queries (Control.cpp lines 356-403)

The 24-byte EEPROM stats set is modelled as a `List Nat` of its bytes; the
loops of `inBottomQuartile`/`inTopQuartile` walk it front to back exactly as
the C code walks the 24 EEPROM cells, aborting on an UNSET byte and returning
true as soon as the counter reaches 18. -/

/-- Loop body of `inBottomQuartile` (Control.cpp lines 363-368): count entries
strictly higher than the sample, abort on UNSET, succeed at 18. -/
def inBottomQuartileLoop (sample : Nat) : List Nat → Nat → Bool
  | [], _ => false
  | v :: rest, valuesHigher =>
    if v = STATS_UNSET_INT then false
    else if sample < v then
      if 18 ≤ valuesHigher + 1 then true else inBottomQuartileLoop sample rest (valuesHigher + 1)
    else inBottomQuartileLoop sample rest valuesHigher

/-- `inBottomQuartile` (Control.cpp lines 360-370). -/
def inBottomQuartile (sE : List Nat) (sample : Nat) : Bool :=
  inBottomQuartileLoop sample sE 0

/-- Loop body of `inTopQuartile` (Control.cpp lines 379-384): count entries
strictly lower than the sample, abort on UNSET, succeed at 18. -/
def inTopQuartileLoop (sample : Nat) : List Nat → Nat → Bool
  | [], _ => false
  | v :: rest, valuesLower =>
    if v = STATS_UNSET_INT then false
    else if v < sample then
      if 18 ≤ valuesLower + 1 then true else inTopQuartileLoop sample rest (valuesLower + 1)
    else inTopQuartileLoop sample rest valuesLower

/-- `inTopQuartile` (Control.cpp lines 376-386). -/
def inTopQuartile (sE : List Nat) (sample : Nat) : Bool :=
  inTopQuartileLoop sample sE 0

/-- `inOutlierQuartile` (Control.cpp lines 394-403): the sample is the stats
set's entry for the requested hour `hh` (the stats-set-number bounds check and
current-hour fallback select which EEPROM block and hour are read and are
outside this model). -/
def inOutlierQuartile (inTop : Bool) (ss : List Nat) (hh : Nat) : Bool :=
  if ss.getD hh 0 = STATS_UNSET_INT then false
  else if inTop then inTopQuartile ss (ss.getD hh 0)
  else inBottomQuartile ss (ss.getD hh 0)

lemma inTopQuartileLoop_iff (sample : Nat) (l : List Nat) :
    ∀ c : Nat, c < 18 → (∀ v ∈ l, v ≠ STATS_UNSET_INT) →
      (inTopQuartileLoop sample l c = true ↔
        18 ≤ c + l.countP (fun v => decide (v < sample))) := by
  induction l with
  | nil => intro c hc _; simp [inTopQuartileLoop]; omega
  | cons v rest ih =>
    intro c hc hl
    have hv : v ≠ STATS_UNSET_INT := hl v (by simp)
    have hrest : ∀ w ∈ rest, w ≠ STATS_UNSET_INT := fun w hw => hl w (by simp [hw])
    rw [List.countP_cons]
    simp only [inTopQuartileLoop]
    rw [if_neg hv]
    by_cases hlt : v < sample
    · rw [if_pos hlt]
      by_cases h18 : 18 ≤ c + 1
      · rw [if_pos h18]; simp [hlt]; omega
      · rw [if_neg h18, ih (c + 1) (by omega) hrest]; simp [hlt]; omega
    · rw [if_neg hlt, ih c hc hrest]; simp [hlt]

lemma inBottomQuartileLoop_iff (sample : Nat) (l : List Nat) :
    ∀ c : Nat, c < 18 → (∀ v ∈ l, v ≠ STATS_UNSET_INT) →
      (inBottomQuartileLoop sample l c = true ↔
        18 ≤ c + l.countP (fun v => decide (sample < v))) := by
  induction l with
  | nil => intro c hc _; simp [inBottomQuartileLoop]; omega
  | cons v rest ih =>
    intro c hc hl
    have hv : v ≠ STATS_UNSET_INT := hl v (by simp)
    have hrest : ∀ w ∈ rest, w ≠ STATS_UNSET_INT := fun w hw => hl w (by simp [hw])
    rw [List.countP_cons]
    simp only [inBottomQuartileLoop]
    rw [if_neg hv]
    by_cases hlt : sample < v
    · rw [if_pos hlt]
      by_cases h18 : 18 ≤ c + 1
      · rw [if_pos h18]; simp [hlt]; omega
      · rw [if_neg h18, ih (c + 1) (by omega) hrest]; simp [hlt]; omega
    · rw [if_neg hlt, ih c hc hrest]; simp [hlt]

/-! ## Claim C5: quartile query behaviour -/

/-- C5 counterexample: a stats set whose last five set entries include UNSET
bytes, yet whose first 18 entries already decide the top-quartile query, makes
`inOutlierQuartile` return `true` even though an entry is UNSET — refuting
"returns false whenever any of the 24 hourly entries is the UNSET byte". -/
theorem claim_C5_counterexample :
    (List.replicate 18 0 ++ List.replicate 5 STATS_UNSET_INT ++ [100]).length = 24 ∧
    STATS_UNSET_INT ∈ (List.replicate 18 0 ++ List.replicate 5 STATS_UNSET_INT ++ [100]) ∧
    inOutlierQuartile true (List.replicate 18 0 ++ List.replicate 5 STATS_UNSET_INT ++ [100]) 23
      = true := by
  decide

/-- C5 (amended): the query returns false when the sampled hour's own entry is
UNSET; when all 24 entries are set it returns true iff at least 18 stored
values are strictly below (top query) / strictly above (bottom query) the
sample; and it returns false when all stored values are equal.  (An UNSET
entry elsewhere only forces false if the scan reaches it before the 18th
qualifying value.) -/
theorem claim_C5_quartile_amended (ss : List Nat) (hh : Nat)
    (hlen : ss.length = 24) (hhh : hh < 24) :
    (ss.getD hh 0 = STATS_UNSET_INT →
       inOutlierQuartile true ss hh = false ∧ inOutlierQuartile false ss hh = false) ∧
    ((∀ v ∈ ss, v ≠ STATS_UNSET_INT) →
       ((inOutlierQuartile true ss hh = true ↔
           18 ≤ ss.countP (fun v => decide (v < ss.getD hh 0))) ∧
        (inOutlierQuartile false ss hh = true ↔
           18 ≤ ss.countP (fun v => decide (ss.getD hh 0 < v))))) ∧
    (∀ c, (∀ v ∈ ss, v = c) →
       inOutlierQuartile true ss hh = false ∧ inOutlierQuartile false ss hh = false) := by
  have hmem : ss.getD hh 0 ∈ ss := by
    rw [List.getD_eq_getElem ss 0 (by omega)]
    exact List.getElem_mem _
  refine ⟨?_, ?_, ?_⟩
  · intro h
    refine ⟨?_, ?_⟩ <;> · unfold inOutlierQuartile; rw [if_pos h]
  · intro hset
    have hsample : ¬(ss.getD hh 0 = STATS_UNSET_INT) := hset _ hmem
    constructor
    · simp only [inOutlierQuartile, if_neg hsample, if_pos trivial, inTopQuartile]
      have := inTopQuartileLoop_iff (ss.getD hh 0) ss 0 (by omega) hset
      rw [this]
      omega
    · simp only [inOutlierQuartile, if_neg hsample, Bool.false_eq_true, if_false,
        inBottomQuartile]
      have := inBottomQuartileLoop_iff (ss.getD hh 0) ss 0 (by omega) hset
      rw [this]
      omega
  · intro c hc
    by_cases h255 : c = STATS_UNSET_INT
    · have hs : ss.getD hh 0 = STATS_UNSET_INT := h255 ▸ hc _ hmem
      refine ⟨?_, ?_⟩ <;> · unfold inOutlierQuartile; rw [if_pos hs]
    · have hset : ∀ v ∈ ss, v ≠ STATS_UNSET_INT := fun v hv => (hc v hv) ▸ h255
      have hsample : ¬(ss.getD hh 0 = STATS_UNSET_INT) := hset _ hmem
      have hceq : ss.getD hh 0 = c := hc _ hmem
      have hcnt1 : ss.countP (fun v => decide (v < ss.getD hh 0)) = 0 := by
        rw [hceq, List.countP_eq_zero]
        intro a ha
        simp [hc a ha]
      have hcnt2 : ss.countP (fun v => decide (ss.getD hh 0 < v)) = 0 := by
        rw [hceq, List.countP_eq_zero]
        intro a ha
        simp [hc a ha]
      constructor
      · have hne : ¬(inOutlierQuartile true ss hh = true) := by
          simp only [inOutlierQuartile, if_neg hsample, if_pos trivial, inTopQuartile]
          rw [inTopQuartileLoop_iff (ss.getD hh 0) ss 0 (by omega) hset, hcnt1]
          omega
        simpa using hne
      · have hne : ¬(inOutlierQuartile false ss hh = true) := by
          simp only [inOutlierQuartile, if_neg hsample, Bool.false_eq_true, if_false,
            inBottomQuartile]
          rw [inBottomQuartileLoop_iff (ss.getD hh 0) ss 0 (by omega) hset, hcnt2]
          omega
        simpa using hne

/-- C5 witness: the amended theorem applied to a fully-set stats list whose
first 18 entries lie strictly below the sampled hour's value. -/
theorem claim_C5_witness :
    (List.replicate 18 10 ++ List.replicate 5 50 ++ [40] : List Nat).length = 24 ∧
    (23 : Nat) < 24 ∧
    inOutlierQuartile true (List.replicate 18 10 ++ List.replicate 5 50 ++ [40]) 23 = true := by
  refine ⟨by decide, by decide, ?_⟩
  exact (((claim_C5_quartile_amended (List.replicate 18 10 ++ List.replicate 5 50 ++ [40]) 23
    (by decide) (by decide)).2.1 (by decide)).1).mpr (by decide)

/-! ## Occupancy tracker (Control.cpp lines 300-351)

`OCCUPATION_TIMEOUT_M` itself is defined in `Control.h` (not in the provided
source) and is passed in as `timeoutM`; the preprocessor in `Control.cpp`
lines 306-314 requires it to lie in [25, 100] and derives `OCCCP_SHIFT`
from it, which is reproduced here. -/

/-- `OCCCP_SHIFT` selection ladder (Control.cpp lines 306-314). -/
def OCCCP_SHIFT (timeoutM : Nat) : Nat :=
  if timeoutM ≤ 25 then 2 else if timeoutM ≤ 50 then 1 else 0

/-- State of the `OccupancyTracker` singleton (fields declared in `Control.h`;
the field set is modelled from the spec's OccupancyState, matching the uses in
Control.cpp lines 317-350). -/
structure OccupancyTracker where
  value : Nat
  occupationCountdownM : Nat
  vacancyM : Nat
  vacancyH : Nat
  activityCountdownM : Nat

/-- The confidence computation of `OccupancyTracker::read` (Control.cpp lines
322-323): `(0 == occupationCountdownM) ? 0 : fnmin((uint8_t)((uint8_t)100 -
(uint8_t)((OCCUPATION_TIMEOUT_M - occupationCountdownM) << OCCCP_SHIFT)), 100)`,
with `u8i` at exactly the C `uint8_t` casts. -/
def occConfidence (timeoutM cd : Nat) : Nat :=
  if cd = 0 then 0
  else min (u8i ((100 : Int) - (u8i (((timeoutM : Int) - cd) * 2 ^ OCCCP_SHIFT timeoutM) : Int)))
        100

/-- `OccupancyTracker::read` (Control.cpp lines 317-332): returns the new
confidence value and the updated state.  The three sequential updates of the C
body (store `value`; run occupation timer down or vacancy time up; run the
activity timer down) touch disjoint fields and are written field-wise. -/
def OccupancyTracker.read (timeoutM : Nat) (s : OccupancyTracker) : Nat × OccupancyTracker :=
  (occConfidence timeoutM s.occupationCountdownM,
   { value := occConfidence timeoutM s.occupationCountdownM
     occupationCountdownM :=
       if 0 < s.occupationCountdownM then s.occupationCountdownM - 1 else s.occupationCountdownM
     vacancyM :=
       if 0 < s.occupationCountdownM then 0
       else if s.vacancyH < 255 then (if 60 ≤ s.vacancyM + 1 then 0 else s.vacancyM + 1)
       else s.vacancyM
     vacancyH :=
       if 0 < s.occupationCountdownM then 0
       else if s.vacancyH < 255 then (if 60 ≤ s.vacancyM + 1 then s.vacancyH + 1 else s.vacancyH)
       else s.vacancyH
     activityCountdownM :=
       if 0 < s.activityCountdownM then s.activityCountdownM - 1 else s.activityCountdownM })

lemma occConfidence_spec (timeoutM cd : Nat) (h1 : 25 ≤ timeoutM) (h2 : timeoutM ≤ 100)
    (h3 : cd ≤ timeoutM) :
    occConfidence timeoutM cd =
      if cd = 0 then 0 else min (100 - (timeoutM - cd) * 2 ^ OCCCP_SHIFT timeoutM) 100 := by
  unfold occConfidence OCCCP_SHIFT u8i
  split_ifs <;> simp only [pow_succ, pow_zero, one_mul] <;> omega

/-! ## Claim C7: occupancy tick -/

/-- C7: `OccupancyTracker::read` returns 0 when the occupation countdown is 0
at entry and otherwise `100 - (timeout - remaining) * 2^OCCCP_SHIFT` clamped
to [0,100]; it decrements a positive countdown (zeroing both vacancy
counters) and otherwise increments the vacancy time, saturating once the hour
counter reaches 255.  The timeout is constrained to [25,100] as the
preprocessor does, and the countdown never exceeds the timeout. -/
theorem claim_C7_occupancy_read (timeoutM : Nat) (s : OccupancyTracker)
    (hT1 : 25 ≤ timeoutM) (hT2 : timeoutM ≤ 100)
    (hcd : s.occupationCountdownM ≤ timeoutM) :
    ((OccupancyTracker.read timeoutM s).1 =
       if s.occupationCountdownM = 0 then 0
       else min (100 - (timeoutM - s.occupationCountdownM) * 2 ^ OCCCP_SHIFT timeoutM) 100) ∧
    (s.occupationCountdownM = 0 → (OccupancyTracker.read timeoutM s).1 = 0) ∧
    (OccupancyTracker.read timeoutM s).1 ≤ 100 ∧
    (0 < s.occupationCountdownM →
       (OccupancyTracker.read timeoutM s).2.occupationCountdownM = s.occupationCountdownM - 1 ∧
       (OccupancyTracker.read timeoutM s).2.vacancyM = 0 ∧
       (OccupancyTracker.read timeoutM s).2.vacancyH = 0) ∧
    (s.occupationCountdownM = 0 →
       ((OccupancyTracker.read timeoutM s).2.vacancyH, (OccupancyTracker.read timeoutM s).2.vacancyM) =
         if s.vacancyH < 255 then
           (if 60 ≤ s.vacancyM + 1 then (s.vacancyH + 1, 0) else (s.vacancyH, s.vacancyM + 1))
         else (s.vacancyH, s.vacancyM)) := by
  have hread1 : (OccupancyTracker.read timeoutM s).1 =
      occConfidence timeoutM s.occupationCountdownM := rfl
  refine ⟨?_, ?_, ?_, ?_, ?_⟩
  · rw [hread1]
    exact occConfidence_spec timeoutM s.occupationCountdownM hT1 hT2 hcd
  · intro h0
    rw [hread1]
    simp [occConfidence, h0]
  · rw [hread1, occConfidence_spec timeoutM s.occupationCountdownM hT1 hT2 hcd]
    split_ifs <;> omega
  · intro hpos
    refine ⟨?_, ?_, ?_⟩ <;> simp [OccupancyTracker.read, hpos]
  · intro h0
    have hnpos : ¬ 0 < s.occupationCountdownM := by omega
    simp only [OccupancyTracker.read, if_neg hnpos]
    split_ifs <;> rfl

/-- C7 witness: the read formula at timeout 50 and countdown 10. -/
theorem claim_C7_witness :
    25 ≤ 50 ∧ (50 : Nat) ≤ 100 ∧
    (OccupancyTracker.mk 0 10 0 0 0).occupationCountdownM ≤ 50 ∧
    (OccupancyTracker.read 50 (OccupancyTracker.mk 0 10 0 0 0)).1 = 20 := by
  refine ⟨by norm_num, by norm_num, by norm_num, ?_⟩
  have h := (claim_C7_occupancy_read 50 (OccupancyTracker.mk 0 10 0 0 0)
    (by norm_num) (by norm_num) (by norm_num)).1
  rw [h]
  decide

/-! ## Target temperature policy (Control.cpp lines 546-626, 860-883) -/

/-- Modelled from the spec: the tunable constants used by the control core that
are defined in `Control.h` / `V0p2_Main.h`, which are not part of the provided
source.  The spec names their roles (setback tiers, BAKE uplift, target bounds,
"moderately open" / "min really open" valve thresholds, run-on budget, antiseek
hysteresis delays) and explicitly treats the exact numeric defaults as
configuration, so they are carried as parameters. -/
structure Params where
  SETBACK_DEFAULT : Nat
  SETBACK_ECO : Nat
  SETBACK_FULL : Nat
  MIN_TARGET_C : Nat
  MAX_TARGET_C : Nat
  BAKE_UPLIFT : Nat
  moderatelyOpen : Nat
  maxRunOnTimeM : Nat
  recloseDelayM : Nat
  reopenDelayM : Nat

/-- Modelled from the spec: concrete default configuration used only to
evaluate the model at specific inputs (plausible values for the Control.h
tunables; the spec leaves the numeric defaults open). -/
def defaultParams : Params :=
  { SETBACK_DEFAULT := 1, SETBACK_ECO := 2, SETBACK_FULL := 4,
    MIN_TARGET_C := 5, MAX_TARGET_C := 32, BAKE_UPLIFT := 5,
    moderatelyOpen := 35, maxRunOnTimeM := 5,
    recloseDelayM := 5, reopenDelayM := 10 }

/-- The external reads feeding `ModelledRadValve::computeTargetTemp`
(Control.cpp lines 553-626): mode, target-temperature getters, occupancy
estimator, ambient light, schedule and UI-recency queries, and the two
occupancy-by-hour quartile queries, captured as one input record. -/
structure ControlInputs where
  inWarmMode : Bool
  inBakeMode : Bool
  frostC : Nat
  warmTargetC : Nat
  hasEcoBias : Bool
  ecoWarmTarget : Bool
  longVacant : Bool
  longLongVacant : Bool
  likelyUnoccupied : Bool
  likelyOccupied : Bool
  occBottomQuartile : Bool
  occTopQuartile : Bool
  darkMinutes : Nat
  roomLit : Bool
  roomDark : Bool
  scheduleOnNow : Bool
  scheduleOnSoon : Bool
  recentUIUse : Bool

/-- `ModelledRadValve::computeTargetTemp` (Control.cpp lines 553-626), with
`u8i` at the C `(uint8_t)` casts of the setback subtraction and BAKE uplift. -/
def computeTargetTemp (p : Params) (i : ControlInputs) : Nat :=
  if !i.inWarmMode then
    if !i.longVacant && i.scheduleOnSoon && !i.recentUIUse then
      if i.frostC < max (u8i ((i.warmTargetC : Int) -
              (if i.hasEcoBias then (p.SETBACK_ECO : Int) else p.SETBACK_DEFAULT))) i.frostC
          && !i.ecoWarmTarget then
        max (u8i ((i.warmTargetC : Int) -
              (if i.hasEcoBias then (p.SETBACK_ECO : Int) else p.SETBACK_DEFAULT))) i.frostC
      else i.frostC
    else i.frostC
  else if i.inBakeMode then
    min (u8i ((i.warmTargetC : Int) + p.BAKE_UPLIFT)) p.MAX_TARGET_C
  else
    if (i.longLongVacant || i.longVacant) ||
        (((i.longLongVacant || (i.likelyUnoccupied && i.occBottomQuartile)) ||
            decide (i.darkMinutes > 10)) && !i.scheduleOnNow && !i.recentUIUse) then
      max (u8i ((i.warmTargetC : Int) -
        (if !i.hasEcoBias || i.likelyOccupied || (!i.longLongVacant && i.roomLit) ||
            (!i.longLongVacant && i.occTopQuartile) ||
            (!(i.longLongVacant || i.longVacant) && i.scheduleOnSoon) then
          (p.SETBACK_DEFAULT : Int)
        else if i.longLongVacant ||
            ((i.longLongVacant || (i.likelyUnoccupied && i.occBottomQuartile)) &&
              i.ecoWarmTarget) then
          (p.SETBACK_FULL : Int)
        else (p.SETBACK_ECO : Int)))) i.frostC
    else i.warmTargetC

/-- The WARM-mode setback branch condition of `computeTargetTemp`
(Control.cpp lines 598-602): in WARM mode, not BAKE, and the vacancy /
darkness / schedule test selecting the setback path holds. -/
def warmSetbackApplied (i : ControlInputs) : Bool :=
  i.inWarmMode && !i.inBakeMode &&
  ((i.longLongVacant || i.longVacant) ||
    (((i.longLongVacant || (i.likelyUnoccupied && i.occBottomQuartile)) ||
        decide (i.darkMinutes > 10)) && !i.scheduleOnNow && !i.recentUIUse))

/-! ## Claim C6: WARM-mode setback never undercuts the FROST target -/

/-- C6: whenever `computeTargetTemp` runs its WARM-mode setback branch, the
returned target is at least the FROST target, for every combination of
occupancy, ambient-light, schedule and bias inputs and every configuration. -/
theorem claim_C6_setback_floored (p : Params) (i : ControlInputs)
    (h : warmSetbackApplied i = true) :
    i.frostC ≤ computeTargetTemp p i := by
  unfold warmSetbackApplied at h
  unfold computeTargetTemp
  split_ifs <;> simp_all

/-- C6 witness: the setback floor at a concrete long-vacant WARM-mode input. -/
theorem claim_C6_witness :
    warmSetbackApplied (ControlInputs.mk true false 5 18 true true false true
      false false false false 0 false true false false false) = true ∧
    (ControlInputs.mk true false 5 18 true true false true
      false false false false 0 false true false false false).frostC ≤
      computeTargetTemp defaultParams
        (ControlInputs.mk true false 5 18 true true false true
          false false false false 0 false true false false false) := by
  refine ⟨by decide, ?_⟩
  exact claim_C6_setback_floored defaultParams _ (by decide)

/-! ## Reference temperature and per-minute target recomputation
(Control.cpp lines 527-544, 860-883) -/

/-- `refTempOffsetC16` (Control.cpp line 528): +0.5 C in 16ths. -/
def refTempOffsetC16 : Int := 8

/-- `ModelledRadValveInputState` (declared in Control.h; field set modelled
from the spec, matching every use in Control.cpp lines 640-883). -/
structure ModelledRadValveInputState where
  targetTempC : Nat
  refTempC16 : Int
  minPCOpen : Nat
  maxPCOpen : Nat
  glacial : Bool
  inBakeMode : Bool
  hasEcoBias : Bool
  widenDeadband : Bool

/-- `ModelledRadValveInputState::setReferenceTemperatures` (Control.cpp lines
540-544): the stored reference temperature is the current temperature plus the
+0.5 C offset. -/
def setReferenceTemperatures (currentTempC16 : Int) : Int :=
  currentTempC16 + refTempOffsetC16

/-- `ModelledRadValve::computeTargetTemperature` (Control.cpp lines 861-883):
recomputes the target, fills the input-state snapshot (min/max percentages,
flags, widened deadband, reference temperature) and sets the calling-for-heat
flag; C `>> 4` on the (possibly negative) reference is an arithmetic shift,
i.e. floor division by 16, which is Lean's `Int` division. -/
def computeTargetTemperature (p : Params) (i : ControlInputs) (currentTempC16 : Int)
    (glacialFlag : Bool) (minPC maxPC : Nat) (isFilteringNow : Bool) :
    ModelledRadValveInputState × Bool :=
  ({ targetTempC := computeTargetTemp p i
     refTempC16 := setReferenceTemperatures currentTempC16
     minPCOpen := minPC
     maxPCOpen := maxPC
     glacial := glacialFlag
     inBakeMode := i.inBakeMode
     hasEcoBias := i.hasEcoBias
     widenDeadband := i.roomDark || i.longVacant || !i.inWarmMode || isFilteringNow },
   decide ((computeTargetTemp p i : Int) ≥ setReferenceTemperatures currentTempC16 / 16))

/-! ## Claim C8: calling-for-heat flag -/

/-- C8: after each target recomputation the calling-for-heat flag equals the
test "target temperature (whole degrees C) >= reference temperature (16ths)
shifted right by 4", where the reference temperature is the measured
temperature plus the fixed +0.5 C offset. -/
theorem claim_C8_calling_for_heat (p : Params) (i : ControlInputs)
    (currentTempC16 : Int) (glacialFlag : Bool) (minPC maxPC : Nat)
    (isFilteringNow : Bool) :
    (computeTargetTemperature p i currentTempC16 glacialFlag minPC maxPC isFilteringNow).2
      = decide ((computeTargetTemp p i : Int) ≥ (currentTempC16 + 8) / 16) ∧
    (computeTargetTemperature p i currentTempC16 glacialFlag minPC maxPC
        isFilteringNow).1.refTempC16 = currentTempC16 + 8 ∧
    (computeTargetTemperature p i currentTempC16 glacialFlag minPC maxPC
        isFilteringNow).1.targetTempC = computeTargetTemp p i := by
  exact ⟨rfl, rfl, rfl⟩

/-! ## Modelled valve state machine (Control.cpp lines 269-295, 628-970) -/

/-- `TRV_MIN_SLEW_PC` (Control.cpp line 272). -/
def TRV_MIN_SLEW_PC : Nat := 7

/-- `TRV_MAX_SLEW_PC_PER_MIN` (Control.cpp line 282; non-glacial build). -/
def TRV_MAX_SLEW_PC_PER_MIN : Nat := 5

/-- `TRV_SLEW_PC_PER_MIN_FAST = min(20, 2*TRV_MAX_SLEW_PC_PER_MIN)`
(Control.cpp line 291). -/
def TRV_SLEW_PC_PER_MIN_FAST : Nat := 10

/-- `MAX_TEMP_JUMP_C16` (Control.cpp line 912): 3/16 C. -/
def MAX_TEMP_JUMP_C16 : Int := 3

/-- Modelled from the spec: `filterLength`, the length of the raw-temperature
ring buffer, is declared in `Control.h` (not in the provided source); the spec
only fixes that it is a fixed-length ring, so a representative length 16 is
used (no claim depends on the exact length). -/
def filterLength : Nat := 16

/-- `ulpStep` (local constant, Control.cpp line 763). -/
def ulpStep : Nat := 6

/-- `ModelledRadValveState` (declared in Control.h; field set modelled from the
spec and from every use in Control.cpp lines 640-970). -/
structure ModelledRadValveState where
  isFiltering : Bool
  prevRawTempC16 : List Int
  valveTurndownCountdownM : Nat
  valveTurnupCountdownM : Nat
  initialised : Bool
  cumulativeMovementPC : Nat
  valveMoved : Bool

/-- Modelled from the spec: `smallIntMean<N>` (rounded integer mean of the
filter ring, declared outside the provided source) — sum plus half the length,
divided by the length. -/
def smallIntMean (l : List Int) : Int := (l.sum + (l.length / 2 : Nat)) / (l.length : Int)

/-- `ModelledRadValveState::getSmoothedRecent` (Control.cpp lines 886-887). -/
def ModelledRadValveState.getSmoothedRecent (rs : ModelledRadValveState) : Int :=
  smallIntMean rs.prevRawTempC16

/-- Modelled from the spec: `getRawDelta` (declared in Control.h), the last raw
temperature change: newest ring entry minus the one before it. -/
def ModelledRadValveState.getRawDelta (rs : ModelledRadValveState) : Int :=
  rs.prevRawTempC16.getD 0 0 - rs.prevRawTempC16.getD 1 0

/-- The possibly-filtered temperature used for targeting
(Control.cpp line 651). -/
def adjustedTempC16 (is : ModelledRadValveInputState) (rs : ModelledRadValveState) : Int :=
  if rs.isFiltering then rs.getSmoothedRecent + refTempOffsetC16 else is.refTempC16

/-- `(int8_t)(adjustedTempC16 >> 4)` (Control.cpp line 652): arithmetic shift
(floor division by 16) then an `int8_t` conversion. -/
def adjustedTempC (is : ModelledRadValveInputState) (rs : ModelledRadValveState) : Int :=
  toInt8 (adjustedTempC16 is rs / 16)

/-- Case 1 of `ModelledRadValve::computeRequiredTRVPercentOpen` (Control.cpp
lines 654-707): (well) under temp target, open the valve up.  `dontTurnup()`
is the Control.h one-liner testing `valveTurndownCountdownM` for zero; the
local `slewRate`/`minOpenFromCold` values are inlined at their use sites;
`u8i` marks each implicit `int`-to-`uint8_t` conversion. -/
def valveOpenUp (p : Params) (valvePCOpen : Nat)
    (is : ModelledRadValveInputState) (rs : ModelledRadValveState) : Nat :=
  if valvePCOpen < is.maxPCOpen then
    if is.inBakeMode = true then is.maxPCOpen
    else if rs.valveTurndownCountdownM ≠ 0 then valvePCOpen
    else if is.glacial = true ∨ (is.minPCOpen ≤ valvePCOpen ∧
        ((is.widenDeadband = true ∧ is.hasEcoBias = true ∧
           (u8i (max ((is.targetTempC : Int) - (p.SETBACK_FULL : Int))
               (p.MIN_TARGET_C : Int)) : Int) ≤ adjustedTempC is rs) ∨
         (rs.isFiltering = true ∧ 0 < rs.getRawDelta))) then
      u8i ((valvePCOpen : Int) + 1)
    else if p.moderatelyOpen ≤ valvePCOpen ∨
        adjustedTempC is rs = (is.targetTempC : Int) - 1 then
      if valvePCOpen < max TRV_MAX_SLEW_PC_PER_MIN is.minPCOpen then
        max TRV_MAX_SLEW_PC_PER_MIN is.minPCOpen
      else min ((valvePCOpen + TRV_MAX_SLEW_PC_PER_MIN) % 256) is.maxPCOpen
    else
      if valvePCOpen < max TRV_SLEW_PC_PER_MIN_FAST is.minPCOpen then
        max TRV_SLEW_PC_PER_MIN_FAST is.minPCOpen
      else min ((valvePCOpen + TRV_SLEW_PC_PER_MIN_FAST) % 256) is.maxPCOpen
  else is.maxPCOpen

/-- Case 2 of `ModelledRadValve::computeRequiredTRVPercentOpen` (Control.cpp
lines 709-754): (well) over temp target, close the valve down.
`dontTurndown()` is the Control.h one-liner testing `valveTurnupCountdownM`
for zero; the local `justOverTemp` and `lingerThreshold` values are inlined. -/
def valveCloseDown (p : Params) (valvePCOpen : Nat)
    (is : ModelledRadValveInputState) (rs : ModelledRadValveState) : Nat :=
  if valvePCOpen ≠ 0 then
    if rs.valveTurnupCountdownM ≠ 0 then valvePCOpen
    else if adjustedTempC is rs = (is.targetTempC : Int) + 1 ∧ is.widenDeadband = true ∧
        rs.getRawDelta < 0 then valvePCOpen
    else if adjustedTempC is rs = (is.targetTempC : Int) + 1 ∧ rs.isFiltering = true then
      u8i ((valvePCOpen : Int) - 1)
    else if valvePCOpen < is.minPCOpen then
      if p.maxRunOnTimeM < is.minPCOpen ∧
          (valvePCOpen : Int) < (is.minPCOpen : Int) - (p.maxRunOnTimeM : Int) then 0
      else u8i ((valvePCOpen : Int) - 1)
    else if (¬ is.hasEcoBias = true ∨ adjustedTempC is rs = (is.targetTempC : Int) + 1 ∨
          rs.isFiltering = true) ∧
        constrainI (((if 0 < is.minPCOpen then is.minPCOpen - 1 else 0 : Nat)) +
            (TRV_SLEW_PC_PER_MIN_FAST : Int)) (TRV_SLEW_PC_PER_MIN_FAST : Int)
            (is.maxPCOpen : Int) < (valvePCOpen : Int) then
      u8i ((valvePCOpen : Int) - (TRV_SLEW_PC_PER_MIN_FAST : Int))
    else if 0 < is.minPCOpen then is.minPCOpen - 1 else 0
  else 0

/-- Case 3 of `ModelledRadValve::computeRequiredTRVPercentOpen` (Control.cpp
lines 756-857): close to (or at) temp target, proportional band.  The local
`lsbits`, `targetPO`, `minAbsSlew`, `slew` and `maxSlew` values are inlined at
their use sites (`targetPO` is `constrainN ((16 - lsbits) * ulpStep) minPCOpen
maxPCOpen`). -/
def valveProportional (p : Params) (valvePCOpen : Nat)
    (is : ModelledRadValveInputState) (rs : ModelledRadValveState) : Nat :=
  if constrainN ((16 - (adjustedTempC16 is rs % 16).toNat) * ulpStep)
      is.minPCOpen is.maxPCOpen ≠ valvePCOpen then
    if constrainN ((16 - (adjustedTempC16 is rs % 16).toNat) * ulpStep)
        is.minPCOpen is.maxPCOpen < valvePCOpen then
      -- Currently open more than required.
      if valvePCOpen - constrainN ((16 - (adjustedTempC16 is rs % 16).toNat) * ulpStep)
          is.minPCOpen is.maxPCOpen <
          max (1 + ulpStep)
            (if is.widenDeadband = true then
              max (min (p.moderatelyOpen / 2)
                  (max TRV_MAX_SLEW_PC_PER_MIN (2 * TRV_MIN_SLEW_PC)))
                (2 + TRV_MIN_SLEW_PC)
            else TRV_MIN_SLEW_PC) then valvePCOpen
      else if rs.valveTurnupCountdownM ≠ 0 then valvePCOpen
      else if rs.getRawDelta ≤ 0 then valvePCOpen
      else if is.glacial = true ∨
          ((is.widenDeadband = true ∨ rs.isFiltering = true) ∧
            valvePCOpen ≤ p.moderatelyOpen) ∨
          (adjustedTempC16 is rs % 16).toNat < 8 then
        u8i ((valvePCOpen : Int) - 1)
      else if TRV_SLEW_PC_PER_MIN_FAST <
          valvePCOpen - constrainN ((16 - (adjustedTempC16 is rs % 16).toNat) * ulpStep)
            is.minPCOpen is.maxPCOpen then
        u8i ((valvePCOpen : Int) - (TRV_SLEW_PC_PER_MIN_FAST : Int))
      else constrainN ((16 - (adjustedTempC16 is rs % 16).toNat) * ulpStep)
        is.minPCOpen is.maxPCOpen
    else
      -- Currently open less than required.
      if is.inBakeMode = true then is.maxPCOpen
      else if constrainN ((16 - (adjustedTempC16 is rs % 16).toNat) * ulpStep)
          is.minPCOpen is.maxPCOpen - valvePCOpen <
          max (1 + ulpStep)
            (if is.widenDeadband = true then
              max (min (p.moderatelyOpen / 2)
                  (max TRV_MAX_SLEW_PC_PER_MIN (2 * TRV_MIN_SLEW_PC)))
                (2 + TRV_MIN_SLEW_PC)
            else TRV_MIN_SLEW_PC) then valvePCOpen
      else if rs.valveTurndownCountdownM ≠ 0 then valvePCOpen
      else if 0 < rs.getRawDelta then valvePCOpen
      else if (if is.widenDeadband = true then 8 else 12) ≤
          (adjustedTempC16 is rs % 16).toNat then valvePCOpen
      else if is.glacial = true ∨ is.widenDeadband = true ∨
          8 ≤ (adjustedTempC16 is rs % 16).toNat ∨
          (4 ≤ (adjustedTempC16 is rs % 16).toNat ∧
            p.moderatelyOpen ≤ valvePCOpen) then
        u8i ((valvePCOpen : Int) + 1)
      else if (if is.hasEcoBias = true then TRV_MAX_SLEW_PC_PER_MIN
            else TRV_SLEW_PC_PER_MIN_FAST) <
          constrainN ((16 - (adjustedTempC16 is rs % 16).toNat) * ulpStep)
            is.minPCOpen is.maxPCOpen - valvePCOpen then
        u8i ((valvePCOpen : Int) +
          ((if is.hasEcoBias = true then TRV_MAX_SLEW_PC_PER_MIN
            else TRV_SLEW_PC_PER_MIN_FAST) : Int))
      else constrainN ((16 - (adjustedTempC16 is rs % 16).toNat) * ulpStep)
        is.minPCOpen is.maxPCOpen
  else valvePCOpen

/-- `ModelledRadValve::computeRequiredTRVPercentOpen` (Control.cpp lines
640-858), for a build with `SUPPORT_BAKE` and `GLACIAL_ON_WITH_WIDE_DEADBAND`
defined (both are active in this snapshot): dispatch on the adjusted
temperature against the target into the three cases above. -/
def computeRequiredTRVPercentOpen (p : Params) (valvePCOpen : Nat)
    (is : ModelledRadValveInputState) (rs : ModelledRadValveState) : Nat :=
  if adjustedTempC is rs < (is.targetTempC : Int) then valveOpenUp p valvePCOpen is rs
  else if (is.targetTempC : Int) < adjustedTempC is rs then valveCloseDown p valvePCOpen is rs
  else valveProportional p valvePCOpen is rs

/-! ## Claim C2: BAKE mode forces the maximum in a single call -/

/-- C2: if the BAKE flag is set and the adjusted temperature is strictly below
the target, `computeRequiredTRVPercentOpen` returns `maxPCOpen`, for every
current valve position and every state of the hysteresis timers. -/
theorem claim_C2_bake_forces_max (p : Params) (valvePCOpen : Nat)
    (is : ModelledRadValveInputState) (rs : ModelledRadValveState)
    (hbake : is.inBakeMode = true)
    (hunder : adjustedTempC is rs < (is.targetTempC : Int)) :
    computeRequiredTRVPercentOpen p valvePCOpen is rs = is.maxPCOpen := by
  unfold computeRequiredTRVPercentOpen valveOpenUp
  rw [if_pos hunder]
  by_cases h : valvePCOpen < is.maxPCOpen
  · rw [if_pos h, if_pos hbake]
  · rw [if_neg h]

/-- C2 witness: BAKE with the room 1 C below target and the anti-hunting
timers both active still jumps to the maximum. -/
theorem claim_C2_witness :
    (ModelledRadValveInputState.mk 20 311 10 100 false true false false).inBakeMode = true ∧
    adjustedTempC (ModelledRadValveInputState.mk 20 311 10 100 false true false false)
      (ModelledRadValveState.mk false (List.replicate 16 303) 3 3 true 0 false) < 20 ∧
    computeRequiredTRVPercentOpen defaultParams 42
      (ModelledRadValveInputState.mk 20 311 10 100 false true false false)
      (ModelledRadValveState.mk false (List.replicate 16 303) 3 3 true 0 false) = 100 := by
  refine ⟨rfl, by decide, ?_⟩
  exact claim_C2_bake_forces_max defaultParams 42 _ _ rfl (by decide)

/-! ## Claim C1: output range of computeRequiredTRVPercentOpen -/

set_option maxHeartbeats 2000000 in
/-- C1 counterexample: below target, with glacial opening requested from a
fully closed valve, the routine returns 1, strictly below the configured
`minPCOpen = 10` — refuting "the returned value lies within
[minPercentOpen, maxPercentOpen] whenever below target". -/
theorem claim_C1_counterexample :
    adjustedTempC (ModelledRadValveInputState.mk 20 307 10 100 true false false false)
      (ModelledRadValveState.mk false (List.replicate 16 299) 0 0 true 0 false) < 20 ∧
    computeRequiredTRVPercentOpen defaultParams 0
      (ModelledRadValveInputState.mk 20 307 10 100 true false false false)
      (ModelledRadValveState.mk false (List.replicate 16 299) 0 0 true 0 false) = 1 ∧
    1 < (ModelledRadValveInputState.mk 20 307 10 100 true false false false).minPCOpen := by
  refine ⟨by decide, by decide, by decide⟩

lemma constrainN_bounds (x lo hi : Nat) (h : lo ≤ hi) :
    lo ≤ constrainN x lo hi ∧ constrainN x lo hi ≤ hi := by
  unfold constrainN
  split_ifs <;> omega

lemma constrainI_ge (x lo hi : Int) (h : lo ≤ hi) : lo ≤ constrainI x lo hi := by
  unfold constrainI
  split_ifs <;> omega

set_option maxHeartbeats 1000000 in
lemma valveOpenUp_lower (p : Params) (v : Nat)
    (is : ModelledRadValveInputState) (rs : ModelledRadValveState) (hv : v ≤ 100)
    (hmm : is.minPCOpen ≤ is.maxPCOpen) :
    min v is.minPCOpen ≤ valveOpenUp p v is rs := by
  unfold valveOpenUp u8i
  unfold TRV_SLEW_PC_PER_MIN_FAST TRV_MAX_SLEW_PC_PER_MIN
  generalize adjustedTempC is rs = aT
  generalize rs.getRawDelta = rd
  split_ifs <;> omega

set_option maxHeartbeats 1000000 in
lemma valveOpenUp_le_max (p : Params) (v : Nat)
    (is : ModelledRadValveInputState) (rs : ModelledRadValveState) (hv : v ≤ 100)
    (hmm : is.minPCOpen ≤ is.maxPCOpen) (hmax : is.maxPCOpen ≤ 100)
    (hfast : TRV_SLEW_PC_PER_MIN_FAST ≤ is.maxPCOpen) :
    valveOpenUp p v is rs ≤ is.maxPCOpen := by
  unfold valveOpenUp u8i
  unfold TRV_SLEW_PC_PER_MIN_FAST TRV_MAX_SLEW_PC_PER_MIN at *
  generalize adjustedTempC is rs = aT
  generalize rs.getRawDelta = rd
  split_ifs <;> omega

set_option maxHeartbeats 1000000 in
lemma valveOpenUp_le_100 (p : Params) (v : Nat)
    (is : ModelledRadValveInputState) (rs : ModelledRadValveState) (hv : v ≤ 100)
    (hmm : is.minPCOpen ≤ is.maxPCOpen) (hmax : is.maxPCOpen ≤ 100) :
    valveOpenUp p v is rs ≤ 100 := by
  unfold valveOpenUp u8i
  unfold TRV_SLEW_PC_PER_MIN_FAST TRV_MAX_SLEW_PC_PER_MIN
  generalize adjustedTempC is rs = aT
  generalize rs.getRawDelta = rd
  split_ifs <;> omega

set_option maxHeartbeats 1000000 in
lemma valveCloseDown_le_self (p : Params) (v : Nat)
    (is : ModelledRadValveInputState) (rs : ModelledRadValveState) (hv : v ≤ 100)
    (hfast : TRV_SLEW_PC_PER_MIN_FAST ≤ is.maxPCOpen) :
    valveCloseDown p v is rs ≤ v := by
  have hge : (TRV_SLEW_PC_PER_MIN_FAST : Int) ≤
      constrainI (((if 0 < is.minPCOpen then is.minPCOpen - 1 else 0 : Nat)) +
        (TRV_SLEW_PC_PER_MIN_FAST : Int)) (TRV_SLEW_PC_PER_MIN_FAST : Int)
        (is.maxPCOpen : Int) := by
    apply constrainI_ge
    unfold TRV_SLEW_PC_PER_MIN_FAST at *
    omega
  unfold valveCloseDown u8i
  generalize hC : constrainI (((if 0 < is.minPCOpen then is.minPCOpen - 1 else 0 : Nat)) +
      (TRV_SLEW_PC_PER_MIN_FAST : Int)) (TRV_SLEW_PC_PER_MIN_FAST : Int)
      (is.maxPCOpen : Int) = cI at hge ⊢
  unfold TRV_SLEW_PC_PER_MIN_FAST at *
  generalize adjustedTempC is rs = aT
  generalize rs.getRawDelta = rd
  split_ifs <;> omega

set_option maxHeartbeats 1000000 in
lemma valveProportional_le_100 (p : Params) (v : Nat)
    (is : ModelledRadValveInputState) (rs : ModelledRadValveState) (hv : v ≤ 100)
    (hmm : is.minPCOpen ≤ is.maxPCOpen) (hmax : is.maxPCOpen ≤ 100) :
    valveProportional p v is rs ≤ 100 := by
  have htb := constrainN_bounds ((16 - (adjustedTempC16 is rs % 16).toNat) * ulpStep)
    is.minPCOpen is.maxPCOpen hmm
  unfold valveProportional u8i
  generalize hT : constrainN ((16 - (adjustedTempC16 is rs % 16).toNat) * ulpStep)
      is.minPCOpen is.maxPCOpen = tPO at htb ⊢
  unfold TRV_SLEW_PC_PER_MIN_FAST TRV_MAX_SLEW_PC_PER_MIN TRV_MIN_SLEW_PC ulpStep
  generalize (adjustedTempC16 is rs % 16).toNat = lsb
  generalize rs.getRawDelta = rd
  split_ifs <;> omega

lemma computeRequired_le_100 (p : Params) (v : Nat)
    (is : ModelledRadValveInputState) (rs : ModelledRadValveState)
    (hv : v ≤ 100) (hmm : is.minPCOpen ≤ is.maxPCOpen) (hmax : is.maxPCOpen ≤ 100)
    (hfast : TRV_SLEW_PC_PER_MIN_FAST ≤ is.maxPCOpen) :
    computeRequiredTRVPercentOpen p v is rs ≤ 100 := by
  unfold computeRequiredTRVPercentOpen
  split_ifs
  · exact valveOpenUp_le_100 p v is rs hv hmm hmax
  · exact le_trans (valveCloseDown_le_self p v is rs hv hfast) hv
  · exact valveProportional_le_100 p v is rs hv hmm hmax

/-- C1 (amended): for byte-range inputs with a sane configuration
(current position ≤ 100, `minPCOpen ≤ maxPCOpen ≤ 100`, and the fast slew
rate `TRV_SLEW_PC_PER_MIN_FAST = 10` not exceeding `maxPCOpen`) every call
returns a value in [0,100]; when the adjusted temperature is strictly below
the target the returned value lies in [min(current, minPCOpen), maxPCOpen] —
the lower bound weakens from `minPCOpen` to the current position because
hysteresis deferral and glacial opening can return values below
`minPCOpen`. -/
theorem claim_C1_valve_bounds_amended (p : Params) (v : Nat)
    (is : ModelledRadValveInputState) (rs : ModelledRadValveState)
    (hv : v ≤ 100) (hmm : is.minPCOpen ≤ is.maxPCOpen) (hmax : is.maxPCOpen ≤ 100)
    (hfast : TRV_SLEW_PC_PER_MIN_FAST ≤ is.maxPCOpen) :
    computeRequiredTRVPercentOpen p v is rs ≤ 100 ∧
    (adjustedTempC is rs < (is.targetTempC : Int) →
      min v is.minPCOpen ≤ computeRequiredTRVPercentOpen p v is rs ∧
      computeRequiredTRVPercentOpen p v is rs ≤ is.maxPCOpen) := by
  refine ⟨computeRequired_le_100 p v is rs hv hmm hmax hfast, fun hunder => ?_⟩
  have hbr : computeRequiredTRVPercentOpen p v is rs = valveOpenUp p v is rs := by
    unfold computeRequiredTRVPercentOpen
    rw [if_pos hunder]
  rw [hbr]
  exact ⟨valveOpenUp_lower p v is rs hv hmm,
    valveOpenUp_le_max p v is rs hv hmm hmax hfast⟩

set_option maxHeartbeats 2000000 in
/-- C1 witness: the amended bounds at a concrete below-target call. -/
theorem claim_C1_witness :
    (50 : Nat) ≤ 100 ∧
    (ModelledRadValveInputState.mk 20 307 10 100 false false false false).minPCOpen ≤
      (ModelledRadValveInputState.mk 20 307 10 100 false false false false).maxPCOpen ∧
    (ModelledRadValveInputState.mk 20 307 10 100 false false false false).maxPCOpen ≤ 100 ∧
    TRV_SLEW_PC_PER_MIN_FAST ≤
      (ModelledRadValveInputState.mk 20 307 10 100 false false false false).maxPCOpen ∧
    computeRequiredTRVPercentOpen defaultParams 50
      (ModelledRadValveInputState.mk 20 307 10 100 false false false false)
      (ModelledRadValveState.mk false (List.replicate 16 299) 0 0 true 0 false) ≤ 100 ∧
    min 50 (ModelledRadValveInputState.mk 20 307 10 100 false false false false).minPCOpen ≤
      computeRequiredTRVPercentOpen defaultParams 50
        (ModelledRadValveInputState.mk 20 307 10 100 false false false false)
        (ModelledRadValveState.mk false (List.replicate 16 299) 0 0 true 0 false) := by
  have h := claim_C1_valve_bounds_amended defaultParams 50
    (ModelledRadValveInputState.mk 20 307 10 100 false false false false)
    (ModelledRadValveState.mk false (List.replicate 16 299) 0 0 true 0 false)
    (by decide) (by decide) (by decide) (by decide)
  exact ⟨by decide, by decide, by decide, by decide, h.1, (h.2 (by decide)).1⟩

/-! ## Per-minute tick of the valve state machine (Control.cpp lines 907-970) -/

/-- The filter-triggering scan of `ModelledRadValveState::tick` (Control.cpp
line 943): true iff some pair of adjacent ring entries differs by more than
`MAX_TEMP_JUMP_C16`. -/
def anyAdjacentJump : List Int → Bool
  | a :: b :: rest => decide (MAX_TEMP_JUMP_C16 < |a - b|) || anyAdjacentJump (b :: rest)
  | _ => false

/-- The state bookkeeping of `ModelledRadValveState::tick` before the valve
recomputation (Control.cpp lines 920-944): lazy initialisation of the ring,
shifting in the latest raw temperature, and switching the noise filter off
(raw close enough to smoothed) or on (adjacent jump detected). -/
def tickFilterUpdate (is : ModelledRadValveInputState) (rs : ModelledRadValveState) :
    ModelledRadValveState :=
  let rawTempC16 := is.refTempC16 - refTempOffsetC16
  let rs0 := if rs.initialised = false then
      { rs with prevRawTempC16 := List.replicate filterLength rawTempC16, initialised := true }
    else rs
  let rs1 := { rs0 with prevRawTempC16 := rawTempC16 :: rs0.prevRawTempC16.take (filterLength - 1) }
  let rs2 := if rs1.isFiltering = true ∧ |rs1.getSmoothedRecent - rawTempC16| ≤ MAX_TEMP_JUMP_C16
    then { rs1 with isFiltering := false } else rs1
  if rs2.isFiltering = false ∧ anyAdjacentJump rs2.prevRawTempC16 = true
  then { rs2 with isFiltering := true } else rs2

/-- The countdown decrements of `ModelledRadValveState::tick` (Control.cpp
lines 946-948); `Nat` subtraction matches the zero-guarded C decrements. -/
def tickCountdownUpdate (rs : ModelledRadValveState) : ModelledRadValveState :=
  { rs with valveTurndownCountdownM := rs.valveTurndownCountdownM - 1
            valveTurnupCountdownM := rs.valveTurnupCountdownM - 1 }

/-- `ModelledRadValveState::tick` (Control.cpp lines 918-970): filter and
countdown updates, valve recomputation, and — on a move — setting the
opposite-direction antiseek countdown (`valveTurnup()` / `valveTurndown()`,
the Control.h one-liners storing the reclose/reopen delays, which are
modelled from the spec as the `Params` fields) and accumulating the absolute
movement.  Returns the new valve percentage and state. -/
def ModelledRadValveState.tick (p : Params) (valvePCOpen : Nat)
    (is : ModelledRadValveInputState) (rs : ModelledRadValveState) :
    Nat × ModelledRadValveState :=
  let rs1 := tickCountdownUpdate (tickFilterUpdate is rs)
  let newValvePC := computeRequiredTRVPercentOpen p valvePCOpen is rs1
  if newValvePC ≠ valvePCOpen then
    if valvePCOpen < newValvePC then
      (newValvePC,
       { rs1 with valveTurnupCountdownM := p.recloseDelayM
                  cumulativeMovementPC :=
                    (rs1.cumulativeMovementPC + (newValvePC - valvePCOpen)) % 65536
                  valveMoved := true })
    else
      (newValvePC,
       { rs1 with valveTurndownCountdownM := p.reopenDelayM
                  cumulativeMovementPC :=
                    (rs1.cumulativeMovementPC + (valvePCOpen - newValvePC)) % 65536
                  valveMoved := true })
  else (valvePCOpen, { rs1 with valveMoved := false })

lemma tickFilterUpdate_valveTurnupCountdownM (is : ModelledRadValveInputState)
    (rs : ModelledRadValveState) :
    (tickFilterUpdate is rs).valveTurnupCountdownM = rs.valveTurnupCountdownM := by
  simp only [tickFilterUpdate]
  split_ifs <;> rfl

lemma tickFilterUpdate_valveTurndownCountdownM (is : ModelledRadValveInputState)
    (rs : ModelledRadValveState) :
    (tickFilterUpdate is rs).valveTurndownCountdownM = rs.valveTurndownCountdownM := by
  simp only [tickFilterUpdate]
  split_ifs <;> rfl

lemma tick_fst (p : Params) (v : Nat) (is : ModelledRadValveInputState)
    (rs : ModelledRadValveState) :
    (ModelledRadValveState.tick p v is rs).1 =
      computeRequiredTRVPercentOpen p v is (tickCountdownUpdate (tickFilterUpdate is rs)) := by
  simp only [ModelledRadValveState.tick]
  split_ifs with h1 h2 <;> simp_all

set_option maxHeartbeats 1000000 in
lemma valveOpenUp_ge_self (p : Params) (v : Nat)
    (is : ModelledRadValveInputState) (rs : ModelledRadValveState)
    (hv : v ≤ 100) (hvm : v ≤ is.maxPCOpen) :
    v ≤ valveOpenUp p v is rs := by
  unfold valveOpenUp u8i
  unfold TRV_SLEW_PC_PER_MIN_FAST TRV_MAX_SLEW_PC_PER_MIN
  generalize adjustedTempC is rs = aT
  generalize rs.getRawDelta = rd
  split_ifs <;> omega

lemma valveCloseDown_hold (p : Params) (v : Nat)
    (is : ModelledRadValveInputState) (rs : ModelledRadValveState)
    (h : rs.valveTurnupCountdownM ≠ 0) :
    valveCloseDown p v is rs = v := by
  unfold valveCloseDown
  by_cases h0 : v ≠ 0
  · rw [if_pos h0, if_pos h]
  · rw [if_neg h0]
    omega

set_option maxHeartbeats 1000000 in
lemma valveProportional_ge_self (p : Params) (v : Nat)
    (is : ModelledRadValveInputState) (rs : ModelledRadValveState)
    (h : rs.valveTurnupCountdownM ≠ 0) (hv : v ≤ 100)
    (hmm : is.minPCOpen ≤ is.maxPCOpen) :
    v ≤ valveProportional p v is rs := by
  have htb := constrainN_bounds ((16 - (adjustedTempC16 is rs % 16).toNat) * ulpStep)
    is.minPCOpen is.maxPCOpen hmm
  unfold valveProportional u8i
  generalize hT : constrainN ((16 - (adjustedTempC16 is rs % 16).toNat) * ulpStep)
      is.minPCOpen is.maxPCOpen = tPO at htb ⊢
  unfold TRV_SLEW_PC_PER_MIN_FAST TRV_MAX_SLEW_PC_PER_MIN TRV_MIN_SLEW_PC ulpStep
  generalize (adjustedTempC16 is rs % 16).toNat = lsb
  generalize rs.getRawDelta = rd
  split_ifs <;> omega

lemma computeRequired_no_close (p : Params) (v : Nat)
    (is : ModelledRadValveInputState) (rs : ModelledRadValveState)
    (h : rs.valveTurnupCountdownM ≠ 0) (hv : v ≤ 100) (hvm : v ≤ is.maxPCOpen)
    (hmm : is.minPCOpen ≤ is.maxPCOpen) :
    v ≤ computeRequiredTRVPercentOpen p v is rs := by
  unfold computeRequiredTRVPercentOpen
  split_ifs
  · exact valveOpenUp_ge_self p v is rs hv hvm
  · exact le_of_eq (valveCloseDown_hold p v is rs h).symm
  · exact valveProportional_ge_self p v is rs h hv hmm

set_option maxHeartbeats 1000000 in
lemma valveOpenUp_hold (p : Params) (v : Nat)
    (is : ModelledRadValveInputState) (rs : ModelledRadValveState)
    (h : rs.valveTurndownCountdownM ≠ 0) (hbake : is.inBakeMode = false)
    (hvm : v ≤ is.maxPCOpen) :
    valveOpenUp p v is rs = v := by
  unfold valveOpenUp
  by_cases hlt : v < is.maxPCOpen
  · rw [if_pos hlt, if_neg (by simp [hbake]), if_pos h]
  · rw [if_neg hlt]
    omega

set_option maxHeartbeats 1000000 in
lemma valveProportional_le_self (p : Params) (v : Nat)
    (is : ModelledRadValveInputState) (rs : ModelledRadValveState)
    (h : rs.valveTurndownCountdownM ≠ 0) (hbake : is.inBakeMode = false)
    (hv : v ≤ 100) :
    valveProportional p v is rs ≤ v := by
  unfold valveProportional u8i
  generalize hT : constrainN ((16 - (adjustedTempC16 is rs % 16).toNat) * ulpStep)
      is.minPCOpen is.maxPCOpen = tPO
  unfold TRV_SLEW_PC_PER_MIN_FAST TRV_MAX_SLEW_PC_PER_MIN TRV_MIN_SLEW_PC ulpStep
  generalize (adjustedTempC16 is rs % 16).toNat = lsb
  generalize rs.getRawDelta = rd
  split_ifs <;> simp_all <;> omega

lemma computeRequired_no_open (p : Params) (v : Nat)
    (is : ModelledRadValveInputState) (rs : ModelledRadValveState)
    (h : rs.valveTurndownCountdownM ≠ 0) (hbake : is.inBakeMode = false)
    (hv : v ≤ 100) (hvm : v ≤ is.maxPCOpen)
    (hfast : TRV_SLEW_PC_PER_MIN_FAST ≤ is.maxPCOpen) :
    computeRequiredTRVPercentOpen p v is rs ≤ v := by
  unfold computeRequiredTRVPercentOpen
  split_ifs
  · exact le_of_eq (valveOpenUp_hold p v is rs h hbake hvm)
  · exact valveCloseDown_le_self p v is rs hv hfast
  · exact valveProportional_le_self p v is rs h hbake hv

set_option maxHeartbeats 1000000 in
lemma valveProportional_hold_up (p : Params) (v : Nat)
    (is : ModelledRadValveInputState) (rs : ModelledRadValveState)
    (h : rs.valveTurnupCountdownM ≠ 0) (hbake : is.inBakeMode = false)
    (hrd : 0 < rs.getRawDelta) :
    valveProportional p v is rs = v := by
  unfold valveProportional u8i
  generalize hT : constrainN ((16 - (adjustedTempC16 is rs % 16).toNat) * ulpStep)
      is.minPCOpen is.maxPCOpen = tPO
  unfold TRV_SLEW_PC_PER_MIN_FAST TRV_MAX_SLEW_PC_PER_MIN TRV_MIN_SLEW_PC ulpStep
  generalize (adjustedTempC16 is rs % 16).toNat = lsb
  generalize hR : rs.getRawDelta = rd at hrd
  split_ifs <;> simp_all

set_option maxHeartbeats 1000000 in
lemma valveProportional_hold_down (p : Params) (v : Nat)
    (is : ModelledRadValveInputState) (rs : ModelledRadValveState)
    (h : rs.valveTurndownCountdownM ≠ 0) (hbake : is.inBakeMode = false)
    (hrd : rs.getRawDelta < 0) :
    valveProportional p v is rs = v := by
  unfold valveProportional u8i
  generalize hT : constrainN ((16 - (adjustedTempC16 is rs % 16).toNat) * ulpStep)
      is.minPCOpen is.maxPCOpen = tPO
  unfold TRV_SLEW_PC_PER_MIN_FAST TRV_MAX_SLEW_PC_PER_MIN TRV_MIN_SLEW_PC ulpStep
  generalize (adjustedTempC16 is rs % 16).toNat = lsb
  generalize hR : rs.getRawDelta = rd at hrd
  split_ifs <;> simp_all <;> omega

lemma computeRequired_hold_after_up (p : Params) (v : Nat)
    (is : ModelledRadValveInputState) (rs : ModelledRadValveState)
    (h : rs.valveTurnupCountdownM ≠ 0) (hbake : is.inBakeMode = false)
    (hover : (is.targetTempC : Int) ≤ adjustedTempC is rs) (hrd : 0 < rs.getRawDelta) :
    computeRequiredTRVPercentOpen p v is rs = v := by
  unfold computeRequiredTRVPercentOpen
  rw [if_neg (by omega)]
  by_cases hgt : (is.targetTempC : Int) < adjustedTempC is rs
  · rw [if_pos hgt]
    exact valveCloseDown_hold p v is rs h
  · rw [if_neg hgt]
    exact valveProportional_hold_up p v is rs h hbake hrd

lemma computeRequired_hold_after_down (p : Params) (v : Nat)
    (is : ModelledRadValveInputState) (rs : ModelledRadValveState)
    (h : rs.valveTurndownCountdownM ≠ 0) (hbake : is.inBakeMode = false)
    (hle : adjustedTempC is rs ≤ (is.targetTempC : Int)) (hrd : rs.getRawDelta < 0)
    (hvm : v ≤ is.maxPCOpen) :
    computeRequiredTRVPercentOpen p v is rs = v := by
  unfold computeRequiredTRVPercentOpen
  by_cases hlt : adjustedTempC is rs < (is.targetTempC : Int)
  · rw [if_pos hlt]
    exact valveOpenUp_hold p v is rs h hbake hvm
  · rw [if_neg hlt, if_neg (by omega)]
    exact valveProportional_hold_down p v is rs h hbake hrd

/-! ## Claim C9: hysteresis timers and oscillation suppression -/

set_option maxHeartbeats 4000000 in
/-- C9 counterexample: with a raw temperature oscillating across the target by
one unit (1/16 C) per tick, the valve moves up at tick 1 (starting the 5-tick
reclose window), holds at tick 2, and moves up again at tick 3 while the
window from tick 1 is still active — two valve changes inside one hysteresis
window, refuting "the valve percentage changes at most once per hysteresis
window". -/
theorem claim_C9_counterexample :
    (let p := defaultParams
     let iA : ModelledRadValveInputState :=
       ModelledRadValveInputState.mk 20 319 10 100 false false false false
     let iB : ModelledRadValveInputState :=
       ModelledRadValveInputState.mk 20 320 10 100 false false false false
     let s0 : ModelledRadValveState := ModelledRadValveState.mk false [] 0 0 false 0 false
     let t1 := ModelledRadValveState.tick p 50 iA s0
     let t2 := ModelledRadValveState.tick p t1.1 iB t1.2
     let t3 := ModelledRadValveState.tick p t2.1 iA t2.2
     p.recloseDelayM = 5 ∧ |iB.refTempC16 - iA.refTempC16| = 1 ∧
     t1.1 = 55 ∧ t1.2.valveMoved = true ∧ t1.2.valveTurnupCountdownM = 5 ∧
     t2.1 = 55 ∧ t2.2.valveMoved = false ∧ t2.2.valveTurnupCountdownM = 4 ∧
     t3.1 = 60 ∧ t3.2.valveMoved = true) := by
  decide

/-- C9 (amended): whenever a tick moves the valve, the opposite-direction
antiseek countdown is reset to its configured delay; while such a countdown is
still running (≥ 2 at tick entry, so still nonzero after the tick's
decrement), no tick moves the valve in the opposite direction (outside BAKE
mode and with the valve within the configured maximum); and immediately after
a move, a call with the temperature now on the other side of the target (raw
trend agreeing) holds the valve, so an input oscillating across the target
cannot move the valve on consecutive ticks.  Same-direction moves may however
recur within a window, so the valve can change more than once per window. -/
theorem claim_C9_hysteresis_amended (p : Params) (v : Nat)
    (is : ModelledRadValveInputState) (rs : ModelledRadValveState)
    (hv : v ≤ 100) (hvm : v ≤ is.maxPCOpen) (hmm : is.minPCOpen ≤ is.maxPCOpen)
    (hfast : TRV_SLEW_PC_PER_MIN_FAST ≤ is.maxPCOpen) (hbake : is.inBakeMode = false) :
    (v < (ModelledRadValveState.tick p v is rs).1 →
       (ModelledRadValveState.tick p v is rs).2.valveTurnupCountdownM = p.recloseDelayM ∧
       (ModelledRadValveState.tick p v is rs).2.valveMoved = true) ∧
    ((ModelledRadValveState.tick p v is rs).1 < v →
       (ModelledRadValveState.tick p v is rs).2.valveTurndownCountdownM = p.reopenDelayM ∧
       (ModelledRadValveState.tick p v is rs).2.valveMoved = true) ∧
    (2 ≤ rs.valveTurnupCountdownM → v ≤ (ModelledRadValveState.tick p v is rs).1) ∧
    (2 ≤ rs.valveTurndownCountdownM → (ModelledRadValveState.tick p v is rs).1 ≤ v) ∧
    (rs.valveTurnupCountdownM ≠ 0 → (is.targetTempC : Int) ≤ adjustedTempC is rs →
       0 < rs.getRawDelta → computeRequiredTRVPercentOpen p v is rs = v) ∧
    (rs.valveTurndownCountdownM ≠ 0 → adjustedTempC is rs ≤ (is.targetTempC : Int) →
       rs.getRawDelta < 0 → computeRequiredTRVPercentOpen p v is rs = v) := by
  have hup1 : (tickCountdownUpdate (tickFilterUpdate is rs)).valveTurnupCountdownM =
      rs.valveTurnupCountdownM - 1 := by
    rw [show (tickCountdownUpdate (tickFilterUpdate is rs)).valveTurnupCountdownM =
        (tickFilterUpdate is rs).valveTurnupCountdownM - 1 from rfl,
      tickFilterUpdate_valveTurnupCountdownM]
  have hdn1 : (tickCountdownUpdate (tickFilterUpdate is rs)).valveTurndownCountdownM =
      rs.valveTurndownCountdownM - 1 := by
    rw [show (tickCountdownUpdate (tickFilterUpdate is rs)).valveTurndownCountdownM =
        (tickFilterUpdate is rs).valveTurndownCountdownM - 1 from rfl,
      tickFilterUpdate_valveTurndownCountdownM]
  refine ⟨?_, ?_, ?_, ?_, ?_, ?_⟩
  · intro hup
    rw [tick_fst] at hup
    by_cases h1 : computeRequiredTRVPercentOpen p v is
        (tickCountdownUpdate (tickFilterUpdate is rs)) ≠ v
    · by_cases h2 : v < computeRequiredTRVPercentOpen p v is
          (tickCountdownUpdate (tickFilterUpdate is rs))
      · simp only [ModelledRadValveState.tick]
        rw [if_pos h1, if_pos h2]
        exact ⟨rfl, rfl⟩
      · exact absurd hup h2
    · omega
  · intro hdn
    rw [tick_fst] at hdn
    by_cases h1 : computeRequiredTRVPercentOpen p v is
        (tickCountdownUpdate (tickFilterUpdate is rs)) ≠ v
    · by_cases h2 : v < computeRequiredTRVPercentOpen p v is
          (tickCountdownUpdate (tickFilterUpdate is rs))
      · omega
      · simp only [ModelledRadValveState.tick]
        rw [if_pos h1, if_neg h2]
        exact ⟨rfl, rfl⟩
    · omega
  · intro h2c
    rw [tick_fst]
    exact computeRequired_no_close p v is _ (by omega) hv hvm hmm
  · intro h2c
    rw [tick_fst]
    exact computeRequired_no_open p v is _ (by omega) hbake hv hvm hfast
  · intro h hover hrd
    exact computeRequired_hold_after_up p v is rs h hbake hover hrd
  · intro h hle hrd
    exact computeRequired_hold_after_down p v is rs h hbake hle hrd hvm

set_option maxHeartbeats 4000000 in
/-- C9 witness: the no-reclose guarantee at a concrete below-target tick whose
reclose countdown is still running. -/
theorem claim_C9_witness :
    (50 : Nat) ≤ 100 ∧
    2 ≤ (ModelledRadValveState.mk false (List.replicate 16 311) 0 3 true 0 false).valveTurnupCountdownM ∧
    50 ≤ (ModelledRadValveState.tick defaultParams 50
      (ModelledRadValveInputState.mk 20 319 10 100 false false false false)
      (ModelledRadValveState.mk false (List.replicate 16 311) 0 3 true 0 false)).1 := by
  refine ⟨by decide, by decide, ?_⟩
  exact (claim_C9_hysteresis_amended defaultParams 50
    (ModelledRadValveInputState.mk 20 319 10 100 false false false false)
    (ModelledRadValveState.mk false (List.replicate 16 311) 0 3 true 0 false)
    (by decide) (by decide) (by decide) (by decide) rfl).2.2.1 (by decide)
